import Mathlib

/-!
Verification of the canvas surface lifecycle and render-loop manager of
react-skia-pack.

The repository has two canvas-lifecycle variants:

* the interactive variant (`SkiaInteractiveCanvas` in
  src/skia-interactive-canvas.tsx): surface setup with a software fallback,
  a `draw` wrapped in try/catch, pointer-event handlers maintaining an
  `InteractionState`, and an imperative `redraw`;
* the basic variant (`SkiaCanvas`): surface setup with no software
  fallback, an unguarded `draw`, and an unguarded unmount cleanup.

The embedding models the mutable refs of a mounted component
(`surfaceRef`, `animationFrameRef`, the host's pending animation-frame
callbacks, and the set of engine surfaces that are currently live) as an
explicit state record, and the external world (the engine's two surface
constructors, the device pixel ratio, and whether canvas retrieval, the
user draw callback, or flush raise) as an environment record.  Exceptions
are `Except` values; a raised exception carries the state of the refs at
the raise point, since refs keep their contents across a throw.
-/

namespace SkiaPack

/-- Outcome of one call to an engine surface constructor
(`MakeCanvasSurface` or `MakeSWCanvasSurface`): the call can raise, return
`null`, or return a fresh surface. -/
inductive MakeResult where
  | raises
  | nullSurface
  | made
deriving DecidableEq, Repr

/-- Which constructor a surface-construction attempt used: the
hardware-accelerated `MakeCanvasSurface` or the software
`MakeSWCanvasSurface`. -/
inductive Attempt where
  | hw
  | sw
deriving DecidableEq, Repr

/-- External behaviour during one lifecycle operation: the result of the
hardware constructor, the results of the first and second software
constructor calls, the value of `window.devicePixelRatio` (`none` models
`undefined`), and whether canvas retrieval, the user draw callback, or
`surface.flush()` raise. -/
structure Env where
  hw : MakeResult
  sw1 : MakeResult
  sw2 : MakeResult
  devicePixelRatio : Option ℚ
  getCanvasRaises : Bool
  cbRaises : Bool
  flushRaises : Bool
deriving DecidableEq, Repr

/-- Evaluation of the idiom `window.devicePixelRatio || 1`: `undefined`
and `0` are falsy, so they yield `1`. -/
def dprOr1 (d : Option ℚ) : ℚ :=
  match d with
  | none => 1
  | some q => if q = 0 then 1 else q

/-- State of a mounted canvas component's refs together with the host
environment the component talks to: `surfaceRef` and `animationFrameRef`
are the two `useRef` cells, `liveSurfaces` is the set (as a list) of
engine surfaces created and not yet released, `pendingTicks` is the host
scheduler's set of outstanding animation-frame callbacks, the two
counters supply fresh surface ids and frame tokens, and
`canvasWidth`/`canvasHeight` record the physical buffer size last
assigned to the canvas element. -/
structure CState where
  surfaceRef : Option Nat
  animationFrameRef : Option Nat
  liveSurfaces : List Nat
  pendingTicks : List Nat
  nextSurfaceId : Nat
  nextToken : Nat
  canvasWidth : ℚ
  canvasHeight : ℚ
deriving DecidableEq, Repr

/-- State of a freshly mounted component: no surface, no scheduled frame,
nothing live. -/
def initState : CState :=
  { surfaceRef := none, animationFrameRef := none, liveSurfaces := [],
    pendingTicks := [], nextSurfaceId := 0, nextToken := 0,
    canvasWidth := 0, canvasHeight := 0 }

/-- Semantics of `surface.delete()`: deleting a live surface releases it;
deleting a handle that is no longer live (for example because the WebGL
context was lost out-of-band) raises. -/
def deleteSurface (st : CState) (s : Nat) : Except Unit CState :=
  if s ∈ st.liveSurfaces then
    .ok { st with liveSurfaces := st.liveSurfaces.erase s }
  else
    .error ()

/-- Semantics of a successful engine surface construction: a fresh id
becomes live. -/
def createSurface (st : CState) : CState × Nat :=
  ({ st with liveSurfaces := st.liveSurfaces ++ [st.nextSurfaceId],
             nextSurfaceId := st.nextSurfaceId + 1 }, st.nextSurfaceId)

/-- Cleanup prologue of the interactive variant's `setupSurface`:
`if (surfaceRef.current) { try { surfaceRef.current.delete() } catch {}
surfaceRef.current = null }`. -/
def clearSurfaceRefGuarded (st : CState) : CState :=
  match st.surfaceRef with
  | some s =>
    let st1 := match deleteSurface st s with
      | .ok st2 => st2
      | .error _ => st
    { st1 with surfaceRef := none }
  | none => st

/-- Shared epilogue of both `setupSurface` variants on a successful
construction: store the surface in the ref and return it. -/
def storeSurface (st : CState) : CState × Option Nat :=
  let p := createSurface st
  ({ p.1 with surfaceRef := some p.2 }, some p.2)

/-- The interactive variant's `setupSurface` (src/skia-interactive-canvas.tsx):
guard on `canvasKit` and `canvasRef.current`; release any existing surface
defensively; assign `canvas.width = width * dpr` and
`canvas.height = height * dpr`; try `MakeCanvasSurface`, falling back to
`MakeSWCanvasSurface` inside the catch; then, if the surface is still
`null`, try `MakeSWCanvasSurface` once more in its own try/catch.  Returns
the new state, the returned surface (or `null`), and the list of
construction attempts in call order.  This function never raises: every
engine call is guarded. -/
def setupSurfaceI (hasCK hasCanvas : Bool) (width height : ℚ) (env : Env)
    (st : CState) : CState × Option Nat × List Attempt :=
  if !(hasCK && hasCanvas) then (st, none, [])
  else
    let st := clearSurfaceRefGuarded st
    let dpr := dprOr1 env.devicePixelRatio
    let st := { st with canvasWidth := width * dpr, canvasHeight := height * dpr }
    match env.hw with
    | .made =>
      let p := storeSurface st
      (p.1, p.2, [.hw])
    | .raises =>
      -- catch: try the software rasterizer as fallback
      match env.sw1 with
      | .made =>
        let p := storeSurface st
        (p.1, p.2, [.hw, .sw])
      | .raises => (st, none, [.hw, .sw])
      | .nullSurface =>
        -- the surface is still null, so the `if (!surface)` block runs
        -- and calls the software constructor a second time
        match env.sw2 with
        | .made =>
          let p := storeSurface st
          (p.1, p.2, [.hw, .sw, .sw])
        | .raises => (st, none, [.hw, .sw, .sw])
        | .nullSurface => (st, none, [.hw, .sw, .sw])
    | .nullSurface =>
      -- `if (!surface)` block: first software call
      match env.sw1 with
      | .made =>
        let p := storeSurface st
        (p.1, p.2, [.hw, .sw])
      | .raises => (st, none, [.hw, .sw])
      | .nullSurface => (st, none, [.hw, .sw])

/-- The basic variant's `setupSurface` (`SkiaCanvas`): guard on `canvasKit`
and `canvasRef.current`; release any existing surface with an unguarded
`delete()`; assign the physical size; call `MakeCanvasSurface` with no
try/catch and no software fallback.  A raise from `delete()` or from
`MakeCanvasSurface` propagates to the caller, carrying the refs' state at
the raise point. -/
def setupSurfaceB (hasCK hasCanvas : Bool) (width height : ℚ) (env : Env)
    (st : CState) : Except CState (CState × Option Nat × List Attempt) :=
  if !(hasCK && hasCanvas) then .ok (st, none, [])
  else
    match st.surfaceRef with
    | some s =>
      match deleteSurface st s with
      | .error _ => .error st
      | .ok st1 =>
        setupSurfaceBCont width height env { st1 with surfaceRef := none }
    | none => setupSurfaceBCont width height env st
where
  setupSurfaceBCont (width height : ℚ) (env : Env) (st : CState) :
      Except CState (CState × Option Nat × List Attempt) :=
    let dpr := dprOr1 env.devicePixelRatio
    let st := { st with canvasWidth := width * dpr, canvasHeight := height * dpr }
    match env.hw with
    | .raises => .error st
    | .nullSurface => .ok (st, none, [.hw])
    | .made =>
      let p := storeSurface st
      .ok (p.1, p.2, [.hw])

/-- Number of software-constructor attempts in an attempt trace. -/
def swCount : List Attempt → Nat
  | [] => 0
  | .sw :: l => swCount l + 1
  | .hw :: l => swCount l

/-- Observable events of one `draw` invocation: the logical width/height
the user draw callback was invoked with (`none` when it was not invoked),
the scale factor applied to the canvas before the callback (`none` when
canvas retrieval raised first), whether `surface.flush()` completed, and
whether a new animation frame was scheduled. -/
structure DrawEvents where
  callbackArgs : Option (ℚ × ℚ)
  scaleApplied : Option ℚ
  flushed : Bool
  rafScheduled : Bool
deriving DecidableEq, Repr

/-- Events of a `draw` that returned before doing anything. -/
def DrawEvents.idle : DrawEvents :=
  { callbackArgs := none, scaleApplied := none, flushed := false,
    rafScheduled := false }

/-- Body shared by both variants' `draw` inside the guard: retrieve the
canvas from the surface (may raise), `save` and `scale(dpr, dpr)`, invoke
the user draw callback with the logical `width`/`height` (may raise),
`restore`, and `flush` the surface (may raise).  Returns the raised-or-ok
outcome together with the events that happened before any raise; the
abstract ref state is not modified by the body. -/
def drawBody (width height : ℚ) (env : Env) : Except Unit Unit × DrawEvents :=
  if env.getCanvasRaises then (.error (), DrawEvents.idle)
  else
    let dpr := dprOr1 env.devicePixelRatio
    let ev : DrawEvents :=
      { callbackArgs := some (width, height), scaleApplied := some dpr,
        flushed := false, rafScheduled := false }
    if env.cbRaises then (.error (), ev)
    else if env.flushRaises then (.error (), ev)
    else (.ok (), { ev with flushed := true })

/-- Scheduling step `animationFrameRef.current = requestAnimationFrame(draw)`:
a fresh token becomes pending and is stored in the ref, overwriting
whatever token was stored before. -/
def scheduleFrame (st : CState) : CState :=
  { st with pendingTicks := st.pendingTicks ++ [st.nextToken],
            animationFrameRef := some st.nextToken,
            nextToken := st.nextToken + 1 }

/-- The interactive variant's `draw`: guard
`if (!canvasKit || !surfaceRef.current) return`; run the body inside
try/catch, returning on failure without scheduling; on success schedule
the next frame when `animate` is set.  The `Except` result is always
`ok`: the catch contains every raise of the body. -/
def drawI (hasCK : Bool) (width height : ℚ) (animate : Bool) (env : Env)
    (st : CState) : Except CState CState × DrawEvents :=
  if !hasCK || st.surfaceRef.isNone then (.ok st, DrawEvents.idle)
  else
    match drawBody width height env with
    | (.error _, ev) => (.ok st, ev)
    | (.ok _, ev) =>
      if animate then (.ok (scheduleFrame st), { ev with rafScheduled := true })
      else (.ok st, ev)

/-- The basic variant's `draw` (`SkiaCanvas`): same guard and body, but
with no try/catch, so a raise from canvas retrieval, the callback, or
flush propagates to the caller and the scheduling line is never
reached. -/
def drawB (hasCK : Bool) (width height : ℚ) (animate : Bool) (env : Env)
    (st : CState) : Except CState CState × DrawEvents :=
  if !hasCK || st.surfaceRef.isNone then (.ok st, DrawEvents.idle)
  else
    match drawBody width height env with
    | (.error _, ev) => (.error st, ev)
    | (.ok _, ev) =>
      if animate then (.ok (scheduleFrame st), { ev with rafScheduled := true })
      else (.ok st, ev)

/-- The imperative `redraw()` exposed through the interactive variant's
ref handle: `if (surfaceRef.current) { draw() }`. -/
def redraw (hasCK : Bool) (width height : ℚ) (animate : Bool) (env : Env)
    (st : CState) : Except CState CState × DrawEvents :=
  if st.surfaceRef.isSome then drawI hasCK width height animate env st
  else (.ok st, DrawEvents.idle)

/-- The ref state carried by a draw outcome, whether it returned or
raised. -/
def carried (e : Except CState CState) : CState :=
  match e with
  | .ok st => st
  | .error st => st

/-- Loop-cancellation step of the unmount cleanup:
`if (animationFrameRef.current) { cancelAnimationFrame(...); ... = null }`. -/
def cancelLoop (st : CState) : CState :=
  match st.animationFrameRef with
  | some t => { st with pendingTicks := st.pendingTicks.erase t,
                        animationFrameRef := none }
  | none => st

/-- The interactive variant's unmount cleanup: cancel any scheduled
frame, then release the surface inside try/catch and clear the ref.
Never raises. -/
def cleanupI (st : CState) : Except CState CState :=
  .ok (clearSurfaceRefGuarded (cancelLoop st))

/-- The basic variant's unmount cleanup: cancel any scheduled frame, then
`surfaceRef.current.delete()` with no try/catch — a raise from an
already-invalid handle propagates, leaving the ref uncleared. -/
def cleanupB (st : CState) : Except CState CState :=
  match (cancelLoop st).surfaceRef with
  | some s =>
    match deleteSurface (cancelLoop st) s with
    | .ok st2 => .ok { st2 with surfaceRef := none }
    | .error _ => .error (cancelLoop st)
  | none => .ok (cancelLoop st)

/-- Geometry of one pointer event as seen by
`normalizePointerEvent` (src/utils/interaction.ts): the event's
client coordinates, the canvas element's bounding client rect, the
canvas element's backing-buffer size (`canvas.width`/`canvas.height`),
and `window.devicePixelRatio` as read at event time. -/
structure PtrEnv where
  clientX : ℚ
  clientY : ℚ
  rectLeft : ℚ
  rectTop : ℚ
  rectWidth : ℚ
  rectHeight : ℚ
  canvasW : ℚ
  canvasH : ℚ
  devicePixelRatio : Option ℚ
deriving DecidableEq, Repr

/-- The coordinate part of `normalizePointerEvent`:
`x = (clientX - rect.left) * (canvas.width / rect.width) / dpr` and
symmetrically for `y`, with `dpr = window.devicePixelRatio || 1`. -/
def normalizePointerEvent (e : PtrEnv) : ℚ × ℚ :=
  let dpr := dprOr1 e.devicePixelRatio
  ((e.clientX - e.rectLeft) * (e.canvasW / e.rectWidth) / dpr,
   (e.clientY - e.rectTop) * (e.canvasH / e.rectHeight) / dpr)

/-- The interactive variant's `InteractionState`: hover flag, pressed
flag, last pointer position, and the id of the pointer currently held
down.  Pointer ids are integers; `none` models `null`. -/
structure InteractionState where
  isHovering : Bool
  isPressed : Bool
  pointerPosition : Option (ℚ × ℚ)
  activePointerId : Option ℤ
deriving DecidableEq, Repr

/-- The `useState` initial value of the interaction state. -/
def initialInteraction : InteractionState :=
  { isHovering := false, isPressed := false, pointerPosition := none,
    activePointerId := none }

/-- `handlePointerDown`: guarded on `interactive` and `canvasRef.current`;
normalizes the event, marks the state pressed at the normalized position
with the event's pointer id, and delivers the normalized coordinates to
`onPointerDown`.  Returns the updated state and the delivered
coordinates (`none` when the guard returned early). -/
def handlePointerDown (interactive hasCanvas : Bool) (e : PtrEnv) (pid : ℤ)
    (s : InteractionState) : InteractionState × Option (ℚ × ℚ) :=
  if !interactive || !hasCanvas then (s, none)
  else
    let n := normalizePointerEvent e
    ({ s with isPressed := true, pointerPosition := some n,
              activePointerId := some pid }, some n)

/-- `handlePointerMove`: guarded the same way; marks hovering and updates
the pointer position with the normalized coordinates, which are also
delivered to `onPointerMove`. -/
def handlePointerMove (interactive hasCanvas : Bool) (e : PtrEnv)
    (s : InteractionState) : InteractionState × Option (ℚ × ℚ) :=
  if !interactive || !hasCanvas then (s, none)
  else
    let n := normalizePointerEvent e
    ({ s with isHovering := true, pointerPosition := some n }, some n)

/-- `handlePointerUp` (also wired to pointer-cancel): guarded the same
way; clears the pressed flag and the active pointer id, delivering the
normalized coordinates to `onPointerUp`. -/
def handlePointerUp (interactive hasCanvas : Bool) (e : PtrEnv)
    (s : InteractionState) : InteractionState × Option (ℚ × ℚ) :=
  if !interactive || !hasCanvas then (s, none)
  else
    let n := normalizePointerEvent e
    ({ s with isPressed := false, activePointerId := none }, some n)

/-- `handlePointerLeave`: guarded on `interactive` only; clears the hover
flag and the pointer position. -/
def handlePointerLeave (interactive : Bool) (s : InteractionState) :
    InteractionState :=
  if !interactive then s
  else { s with isHovering := false, pointerPosition := none }

/-- The implicit press invariant of the interaction state: the pressed
flag is set exactly when an active pointer id is recorded. -/
def PressInv (s : InteractionState) : Prop :=
  s.isPressed = s.activePointerId.isSome

instance (s : InteractionState) : Decidable (PressInv s) :=
  inferInstanceAs (Decidable (s.isPressed = s.activePointerId.isSome))

/-- Arguments of one `setupSurface` call in a call sequence. -/
structure SetupCall where
  hasCK : Bool
  hasCanvas : Bool
  width : ℚ
  height : ℚ
  env : Env
deriving Repr

/-- Ref state after one basic-variant `setupSurface` call, whether it
returned or raised (refs keep their contents across a throw). -/
def stepSetupB (st : CState) (c : SetupCall) : CState :=
  match setupSurfaceB c.hasCK c.hasCanvas c.width c.height c.env st with
  | .ok r => r.1
  | .error s => s

/-- Ref state after a sequence of interactive-variant `setupSurface`
calls. -/
def runSetupsI (calls : List SetupCall) (st : CState) : CState :=
  calls.foldl
    (fun s c => (setupSurfaceI c.hasCK c.hasCanvas c.width c.height c.env s).1) st

/-- Ref state after a sequence of basic-variant `setupSurface` calls. -/
def runSetupsB (calls : List SetupCall) (st : CState) : CState :=
  calls.foldl stepSetupB st

/-- Surface-ownership invariant of a mounted component: either no surface
is live, or exactly the one stored in `surfaceRef` is. -/
def SurfInv (st : CState) : Prop :=
  st.liveSurfaces = [] ∨ ∃ s, st.surfaceRef = some s ∧ st.liveSurfaces = [s]

/-! ## Helper lemmas for the surface-ownership invariant -/

theorem clearSurfaceRefGuarded_live (st : CState) (h : SurfInv st) :
    (clearSurfaceRefGuarded st).liveSurfaces = [] := by
  rcases h with h | ⟨s, hs, hl⟩
  · unfold clearSurfaceRefGuarded deleteSurface
    rcases st.surfaceRef with _ | s
    · exact h
    · simp [h]
  · unfold clearSurfaceRefGuarded deleteSurface
    rw [hs]
    simp [hl]

theorem storeSurface_inv (st : CState) (h : st.liveSurfaces = []) :
    SurfInv (storeSurface st).1 :=
  Or.inr ⟨st.nextSurfaceId, by simp [storeSurface, createSurface],
    by simp [storeSurface, createSurface, h]⟩

theorem inv_of_live_nil (st : CState) (h : st.liveSurfaces = []) : SurfInv st :=
  Or.inl h

theorem setupSurfaceI_inv (hk hc : Bool) (w h : ℚ) (env : Env) (st : CState)
    (hI : SurfInv st) : SurfInv (setupSurfaceI hk hc w h env st).1 := by
  have hclear := clearSurfaceRefGuarded_live st hI
  unfold setupSurfaceI
  split
  · exact hI
  · rcases env with ⟨hw, sw1, sw2, d, g, c, f⟩
    cases hw <;> cases sw1 <;> cases sw2 <;>
      first
        | exact inv_of_live_nil _ (by simpa using hclear)
        | exact storeSurface_inv _ (by simpa using hclear)

theorem setupSurfaceBCont_inv (w h : ℚ) (env : Env) (st : CState)
    (hl : st.liveSurfaces = []) :
    SurfInv (match setupSurfaceB.setupSurfaceBCont w h env st with
             | .ok r => r.1
             | .error s => s) := by
  unfold setupSurfaceB.setupSurfaceBCont
  rcases env with ⟨hw, sw1, sw2, d, g, c, f⟩
  cases hw <;>
    first
      | exact inv_of_live_nil _ (by simpa using hl)
      | exact storeSurface_inv _ (by simpa using hl)

theorem stepSetupB_inv (st : CState) (c : SetupCall) (hI : SurfInv st) :
    SurfInv (stepSetupB st c) := by
  unfold stepSetupB setupSurfaceB
  by_cases hg : (!(c.hasCK && c.hasCanvas)) = true
  · rw [if_pos hg]
    exact hI
  · rw [if_neg hg]
    rcases hr : st.surfaceRef with _ | s
    · dsimp only
      have hl : st.liveSurfaces = [] := by
        rcases hI with h | ⟨t, ht, _⟩
        · exact h
        · rw [hr] at ht; cases ht
      exact setupSurfaceBCont_inv _ _ _ _ hl
    · dsimp only
      rcases hI with h | ⟨t, ht, hl⟩
      · have hdel : deleteSurface st s = .error () := by
          unfold deleteSurface
          rw [h]
          simp
        rw [hdel]
        exact Or.inl h
      · rw [hr] at ht
        have hts : s = t := by injection ht
        subst hts
        have hdel : deleteSurface st s =
            .ok { st with liveSurfaces := ([s] : List Nat).erase s } := by
          unfold deleteSurface
          rw [hl]
          simp
        rw [hdel]
        exact setupSurfaceBCont_inv _ _ _ _ (by simp)

theorem runSetupsI_inv (calls : List SetupCall) (st : CState) (hI : SurfInv st) :
    SurfInv (runSetupsI calls st) := by
  induction calls generalizing st with
  | nil => exact hI
  | cons c rest ih =>
    exact ih _ (setupSurfaceI_inv c.hasCK c.hasCanvas c.width c.height c.env st hI)

theorem runSetupsB_inv (calls : List SetupCall) (st : CState) (hI : SurfInv st) :
    SurfInv (runSetupsB calls st) := by
  induction calls generalizing st with
  | nil => exact hI
  | cons c rest ih => exact ih _ (stepSetupB_inv st c hI)

theorem SurfInv.length_le_one (st : CState) (h : SurfInv st) :
    st.liveSurfaces.length ≤ 1 := by
  rcases h with h | ⟨s, _, h⟩ <;> simp [h]

instance {ε α : Type} [DecidableEq ε] [DecidableEq α] : DecidableEq (Except ε α) :=
  fun a b =>
    match a, b with
    | .ok x, .ok y =>
      if h : x = y then .isTrue (by rw [h]) else .isFalse (by simp [h])
    | .error x, .error y =>
      if h : x = y then .isTrue (by rw [h]) else .isFalse (by simp [h])
    | .ok _, .error _ => .isFalse (by simp)
    | .error _, .ok _ => .isFalse (by simp)

theorem setupSurfaceBCont_sw_zero (w h : ℚ) (env : Env) (st : CState)
    (r : CState × Option Nat × List Attempt)
    (hok : setupSurfaceB.setupSurfaceBCont w h env st = .ok r) :
    swCount r.2.2 = 0 := by
  unfold setupSurfaceB.setupSurfaceBCont at hok
  rcases env with ⟨hw, sw1, sw2, d, g, c, f⟩
  cases hw
  · exact Except.noConfusion hok
  · dsimp only at hok
    injection hok with h1
    subst h1
    rfl
  · dsimp only at hok
    injection hok with h1
    subst h1
    rfl

theorem setupSurfaceB_sw_zero (hk hc : Bool) (w h : ℚ) (env : Env) (st : CState)
    (r : CState × Option Nat × List Attempt)
    (hok : setupSurfaceB hk hc w h env st = .ok r) :
    swCount r.2.2 = 0 := by
  unfold setupSurfaceB at hok
  by_cases hg : (!(hk && hc)) = true
  · rw [if_pos hg] at hok
    cases hok
    rfl
  · rw [if_neg hg] at hok
    rcases hr : st.surfaceRef with _ | s <;> rw [hr] at hok <;> dsimp only at hok
    · exact setupSurfaceBCont_sw_zero _ _ _ _ _ hok
    · rcases hd : deleteSurface st s with u | st1 <;> rw [hd] at hok <;>
        dsimp only at hok
      · cases hok
      · exact setupSurfaceBCont_sw_zero _ _ _ _ _ hok

/-! ## Concrete fixtures used by witnesses and counterexamples -/

/-- Benign environment: hardware construction succeeds, nothing raises,
device pixel ratio 2. -/
def envOk : Env :=
  { hw := .made, sw1 := .made, sw2 := .made, devicePixelRatio := some 2,
    getCanvasRaises := false, cbRaises := false, flushRaises := false }

/-- State of a component holding one live surface, with nothing
scheduled. -/
def stLive : CState :=
  { surfaceRef := some 0, animationFrameRef := none, liveSurfaces := [0],
    pendingTicks := [], nextSurfaceId := 1, nextToken := 0,
    canvasWidth := 8, canvasHeight := 6 }

/-- State of a component whose surface handle was invalidated out-of-band
(for example a lost WebGL context): the ref still holds handle `0`, but
the surface is no longer live, so `delete()` on it raises. -/
def stStale : CState :=
  { surfaceRef := some 0, animationFrameRef := none, liveSurfaces := [],
    pendingTicks := [], nextSurfaceId := 1, nextToken := 0,
    canvasWidth := 8, canvasHeight := 6 }

/-- State of a component in continuous mode with one animation-frame tick
(token 5) outstanding and referenced. -/
def stLoop : CState :=
  { surfaceRef := some 0, animationFrameRef := some 5, liveSurfaces := [0],
    pendingTicks := [5], nextSurfaceId := 1, nextToken := 6,
    canvasWidth := 8, canvasHeight := 6 }

/-! ## Claims -/

/-- C4: for any sequence of `setupSurface` calls on the same target (in
either variant), after each call completes — including calls that raised,
whose ref state is the state at the raise point — at most one
RenderSurface is registered live for the target: any previously live
surface is released and cleared before a new one is constructed and
stored. -/
theorem at_most_one_live_surface (calls : List SetupCall) :
    (runSetupsI calls initState).liveSurfaces.length ≤ 1 ∧
    (runSetupsB calls initState).liveSurfaces.length ≤ 1 :=
  ⟨SurfInv.length_le_one _ (runSetupsI_inv calls initState (Or.inl rfl)),
   SurfInv.length_le_one _ (runSetupsB_inv calls initState (Or.inl rfl))⟩

/-- C2 (amended): in the interactive variant's `setupSurface`, if
hardware construction succeeds with a non-null surface, software
construction is never attempted; if hardware construction returns null
without raising, software construction is attempted exactly once; if
hardware construction raises, software construction is attempted once —
and a second time when the first software attempt returns null without
raising.  The basic variant has no software fallback at all: none of its
completed calls ever attempts software construction. -/
theorem setup_fallback_order (w h : ℚ) (env : Env) (st : CState) :
    (env.hw = .made → swCount (setupSurfaceI true true w h env st).2.2 = 0) ∧
    (env.hw = .nullSurface →
      swCount (setupSurfaceI true true w h env st).2.2 = 1) ∧
    (env.hw = .raises →
      swCount (setupSurfaceI true true w h env st).2.2 =
        if env.sw1 = .nullSurface then 2 else 1) ∧
    (∀ r, setupSurfaceB true true w h env st = .ok r → swCount r.2.2 = 0) := by
  refine ⟨?_, ?_, ?_, fun r hok => setupSurfaceB_sw_zero _ _ _ _ _ _ _ hok⟩ <;>
    intro hhw <;>
    rcases env with ⟨hw, sw1, sw2, d, g, c, f⟩ <;>
    cases hhw <;>
    cases sw1 <;> cases sw2 <;> simp [setupSurfaceI, swCount]

/-- Discrete outcome of a basic-variant `setupSurface` call: the surface
it returned and its attempt trace, or `none` when it raised. -/
def setupBOutcome (e : Except CState (CState × Option Nat × List Attempt)) :
    Option (Option Nat × List Attempt) :=
  match e with
  | .ok r => some r.2
  | .error _ => none

/-- Environment whose hardware constructor returns null without
raising. -/
def envHwNull : Env := { envOk with hw := .nullSurface }

/-- Environment whose hardware constructor raises and whose software
constructor returns null on both attempts. -/
def envHwRaisesSwNull : Env :=
  { envOk with hw := .raises, sw1 := .nullSurface, sw2 := .nullSurface }

/-- C2 counterexample: the claim as stated fails on the code in two ways.
In the basic variant, hardware construction returning null reports
Failure (a null surface) after zero software attempts — there is no
fallback.  In the interactive variant, when hardware construction raises
and the first software attempt returns null, the software constructor is
attempted a second time, so it is not attempted exactly once before
Failure. -/
theorem setup_fallback_order_counterexample :
    (setupBOutcome (setupSurfaceB true true 4 3 envHwNull initState) =
       some (none, [Attempt.hw]) ∧ swCount [Attempt.hw] = 0) ∧
    swCount (setupSurfaceI true true 4 3 envHwRaisesSwNull initState).2.2 = 2 :=
  ⟨⟨rfl, rfl⟩, rfl⟩

/-- C2 witness: the amended fallback-order theorem applied at an
environment whose hardware constructor raises and whose software
constructor returns null on its first attempt, and at one whose hardware
constructor succeeds. -/
theorem setup_fallback_order_witness :
    swCount (setupSurfaceI true true 4 3 envHwRaisesSwNull initState).2.2 =
      (if envHwRaisesSwNull.sw1 = .nullSurface then 2 else 1) ∧
    swCount (setupSurfaceI true true 4 3 envOk initState).2.2 = 0 :=
  ⟨(setup_fallback_order 4 3 envHwRaisesSwNull initState).2.2.1 rfl,
   (setup_fallback_order 4 3 envOk initState).1 rfl⟩

/-- Whether a draw outcome returned normally (`true`) or raised
(`false`). -/
def exceptOk (e : Except CState CState) : Bool :=
  match e with
  | .ok _ => true
  | .error _ => false

/-- Environment in which the user draw callback raises and everything
else behaves. -/
def envCbRaises : Env := { envOk with cbRaises := true }

/-- Environment in which only `surface.flush()` raises. -/
def envFlushRaises : Env := { envOk with flushRaises := true }

/-- C1 (amended): the interactive variant's `draw` never raises — the
guard plus the try/catch contain every exception from canvas retrieval,
the user draw callback, and `flush` — while in the basic variant a draw
body raising at any of those three points propagates to the caller
whenever a surface is bound. -/
theorem draw_exception_containment (hasCK : Bool) (w h : ℚ) (animate : Bool)
    (env : Env) (st : CState) :
    exceptOk (drawI hasCK w h animate env st).1 = true ∧
    ((env.getCanvasRaises = true ∨ env.cbRaises = true ∨
        env.flushRaises = true) →
      st.surfaceRef.isSome = true →
      exceptOk (drawB true w h animate env st).1 = false) := by
  constructor
  · unfold drawI drawBody
    rcases env with ⟨hw, sw1, sw2, d, g, c, f⟩
    rcases hs : st.surfaceRef with _ | s <;>
      cases hasCK <;> cases animate <;> cases g <;> cases c <;> cases f <;>
      simp [hs, exceptOk]
  · intro hfail hs
    unfold drawB drawBody
    rcases env with ⟨hw, sw1, sw2, d, g, c, f⟩
    rcases hr : st.surfaceRef with _ | s
    · rw [hr] at hs; cases hs
    · cases g <;> cases c <;> cases f <;> simp_all [exceptOk]

/-- C1 witness: the containment theorem applied with a bound surface at
an environment where only `flush` raises. -/
theorem draw_exception_containment_witness :
    exceptOk (drawI true 4 3 false envFlushRaises stLive).1 = true ∧
    exceptOk (drawB true 4 3 false envFlushRaises stLive).1 = false :=
  ⟨(draw_exception_containment true 4 3 false envFlushRaises stLive).1,
   (draw_exception_containment true 4 3 false envFlushRaises stLive).2
     (Or.inr (Or.inr rfl)) rfl⟩

/-- C1 counterexample: paint does raise in the basic variant — with a
live surface bound and a draw callback that raises, `SkiaCanvas`'s `draw`
propagates the exception to its caller. -/
theorem draw_raises_in_basic_variant :
    exceptOk (drawB true 4 3 false envCbRaises stLive).1 = false := rfl

/-- C3: in continuous-loop mode, a failing paint body (canvas retrieval,
the draw callback, or flush raising) schedules no further
animation-frame tick in either variant: the interactive variant returns
from the catch before the scheduling line, the basic variant aborts on
the raise before reaching it.  In both variants the set of outstanding
ticks is exactly what it was before the call. -/
theorem draw_failure_stops_loop (hasCK : Bool) (w h : ℚ) (animate : Bool)
    (env : Env) (st : CState)
    (hfail : env.getCanvasRaises = true ∨ env.cbRaises = true ∨
      env.flushRaises = true) :
    (drawI hasCK w h animate env st).1 = .ok st ∧
    (drawI hasCK w h animate env st).2.rafScheduled = false ∧
    (drawB hasCK w h animate env st).2.rafScheduled = false ∧
    carried (drawB hasCK w h animate env st).1 = st := by
  unfold drawI drawB drawBody
  rcases env with ⟨hw, sw1, sw2, d, g, c, f⟩
  rcases hs : st.surfaceRef with _ | s <;>
    cases hasCK <;> cases g <;> cases c <;> cases f <;>
    simp_all [DrawEvents.idle, carried]

/-- C3 witness: the loop-stopping theorem applied at a raising callback
during an active loop; the outstanding tick set is untouched and nothing
new is scheduled. -/
theorem draw_failure_stops_loop_witness :
    (drawI true 4 3 true envCbRaises stLoop).1 = .ok stLoop ∧
    (drawI true 4 3 true envCbRaises stLoop).2.rafScheduled = false ∧
    (drawB true 4 3 true envCbRaises stLoop).2.rafScheduled = false ∧
    carried (drawB true 4 3 true envCbRaises stLoop).1 = stLoop :=
  draw_failure_stops_loop true 4 3 true envCbRaises stLoop (Or.inr (Or.inl rfl))

/-- C7: when no live surface is bound (`surfaceRef` is null) or the
engine handle is absent, paint is a no-op in both variants: it returns
normally, leaves the state untouched, and never invokes the user draw
callback. -/
theorem draw_noop_without_surface (hasCK : Bool) (w h : ℚ) (animate : Bool)
    (env : Env) (st : CState)
    (hns : hasCK = false ∨ st.surfaceRef = none) :
    drawI hasCK w h animate env st = (.ok st, DrawEvents.idle) ∧
    drawB hasCK w h animate env st = (.ok st, DrawEvents.idle) ∧
    (drawI hasCK w h animate env st).2.callbackArgs = none := by
  have hg : (!hasCK || st.surfaceRef.isNone) = true := by
    rcases hns with h | h <;> simp [h]
  refine ⟨?_, ?_, ?_⟩
  · unfold drawI
    rw [if_pos hg]
  · unfold drawB
    rw [if_pos hg]
  · unfold drawI
    rw [if_pos hg]
    rfl

/-- C7 witness: the no-op theorem applied to a component whose surface
ref is still null. -/
theorem draw_noop_without_surface_witness :
    drawI true 4 3 false envOk initState = (.ok initState, DrawEvents.idle) ∧
    drawB true 4 3 false envOk initState = (.ok initState, DrawEvents.idle) ∧
    (drawI true 4 3 false envOk initState).2.callbackArgs = none :=
  draw_noop_without_surface true 4 3 false envOk initState (Or.inr rfl)

theorem setupSurfaceBCont_dims (w h : ℚ) (env : Env) (st : CState)
    (r : CState × Option Nat × List Attempt)
    (hok : setupSurfaceB.setupSurfaceBCont w h env st = .ok r) :
    r.1.canvasWidth = w * dprOr1 env.devicePixelRatio ∧
    r.1.canvasHeight = h * dprOr1 env.devicePixelRatio := by
  unfold setupSurfaceB.setupSurfaceBCont at hok
  rcases env with ⟨hw, sw1, sw2, d, g, c, f⟩
  cases hw
  · exact Except.noConfusion hok
  · dsimp only at hok
    injection hok with h1
    subst h1
    exact ⟨rfl, rfl⟩
  · dsimp only at hok
    injection hok with h1
    subst h1
    exact ⟨rfl, rfl⟩

theorem setupSurfaceB_dims (w h : ℚ) (env : Env) (st : CState)
    (r : CState × Option Nat × List Attempt)
    (hok : setupSurfaceB true true w h env st = .ok r) :
    r.1.canvasWidth = w * dprOr1 env.devicePixelRatio ∧
    r.1.canvasHeight = h * dprOr1 env.devicePixelRatio := by
  unfold setupSurfaceB at hok
  rw [if_neg (by decide)] at hok
  rcases hr : st.surfaceRef with _ | s <;> rw [hr] at hok <;> dsimp only at hok
  · exact setupSurfaceBCont_dims _ _ _ _ _ hok
  · rcases hd : deleteSurface st s with u | st1 <;> rw [hd] at hok <;>
      dsimp only at hok
    · exact Except.noConfusion hok
    · exact setupSurfaceBCont_dims _ _ _ _ _ hok

/-- C5 (amended): for every surface (re)build with logical size (w, h)
and effective device pixel ratio d, in either variant, the physical
buffer requested equals exactly (w*d, h*d) — no ceiling is applied, so it
coincides with (ceil(w*d), ceil(h*d)) only when the products are
integers — and every draw callback, in either variant, is invoked with
logical width w and height h regardless of d, the DPR entering the paint
only as the canvas scale transform. -/
theorem buffer_request_and_logical_callback (w h : ℚ) (env : Env) (st : CState) :
    (setupSurfaceI true true w h env st).1.canvasWidth =
      w * dprOr1 env.devicePixelRatio ∧
    (setupSurfaceI true true w h env st).1.canvasHeight =
      h * dprOr1 env.devicePixelRatio ∧
    (∀ r, setupSurfaceB true true w h env st = .ok r →
      r.1.canvasWidth = w * dprOr1 env.devicePixelRatio ∧
      r.1.canvasHeight = h * dprOr1 env.devicePixelRatio) ∧
    (∀ hasCK animate a b,
      (drawI hasCK w h animate env st).2.callbackArgs = some (a, b) →
        a = w ∧ b = h ∧
        (drawI hasCK w h animate env st).2.scaleApplied =
          some (dprOr1 env.devicePixelRatio)) ∧
    (∀ hasCK animate a b,
      (drawB hasCK w h animate env st).2.callbackArgs = some (a, b) →
        a = w ∧ b = h ∧
        (drawB hasCK w h animate env st).2.scaleApplied =
          some (dprOr1 env.devicePixelRatio)) := by
  refine ⟨?_, ?_, fun r hok => setupSurfaceB_dims _ _ _ _ _ hok, ?_, ?_⟩
  · unfold setupSurfaceI
    rcases env with ⟨hw, sw1, sw2, d, g, c, f⟩
    cases hw <;> cases sw1 <;> cases sw2 <;>
      simp [storeSurface, createSurface]
  · unfold setupSurfaceI
    rcases env with ⟨hw, sw1, sw2, d, g, c, f⟩
    cases hw <;> cases sw1 <;> cases sw2 <;>
      simp [storeSurface, createSurface]
  · intro hasCK animate a b hcb
    unfold drawI drawBody at hcb ⊢
    rcases env with ⟨hw, sw1, sw2, d, g, c, f⟩
    rcases hs : st.surfaceRef with _ | s <;>
      cases hasCK <;> cases animate <;> cases g <;> cases c <;> cases f <;>
      simp_all [DrawEvents.idle]
  · intro hasCK animate a b hcb
    unfold drawB drawBody at hcb ⊢
    rcases env with ⟨hw, sw1, sw2, d, g, c, f⟩
    rcases hs : st.surfaceRef with _ | s <;>
      cases hasCK <;> cases animate <;> cases g <;> cases c <;> cases f <;>
      simp_all [DrawEvents.idle]

/-- C5 witness: at logical size (4, 3) and DPR 2 the interactive variant
requests a 4*2 wide buffer and both variants' draw callbacks receive the
logical size with the DPR as the scale factor. -/
theorem buffer_request_and_logical_callback_witness :
    (setupSurfaceI true true 4 3 envOk initState).1.canvasWidth =
      4 * dprOr1 envOk.devicePixelRatio ∧
    ((4 : ℚ) = 4 ∧ (3 : ℚ) = 3 ∧
      (drawI true 4 3 false envOk stLive).2.scaleApplied =
        some (dprOr1 envOk.devicePixelRatio)) ∧
    ((4 : ℚ) = 4 ∧ (3 : ℚ) = 3 ∧
      (drawB true 4 3 false envOk stLive).2.scaleApplied =
        some (dprOr1 envOk.devicePixelRatio)) :=
  ⟨(buffer_request_and_logical_callback 4 3 envOk initState).1,
   (buffer_request_and_logical_callback 4 3 envOk stLive).2.2.2.1
     true false 4 3 rfl,
   (buffer_request_and_logical_callback 4 3 envOk stLive).2.2.2.2
     true false 4 3 rfl⟩

/-- Environment with fractional device pixel ratio 3/2. -/
def envDpr32 : Env := { envOk with devicePixelRatio := some (3 / 2) }

/-- C5 counterexample: at logical size (1, 1) and DPR 3/2 the physical
buffer requested has width 1 * 3/2 = 3/2, which is not
ceil(1 * 3/2) = 2: the code applies no ceiling to `width * dpr`. -/
theorem buffer_request_not_ceiled :
    (setupSurfaceI true true 1 1 envDpr32 initState).1.canvasWidth ≠
      ((⌈(1 : ℚ) * (3 / 2 : ℚ)⌉ : ℤ) : ℚ) := by
  have h1 : (setupSurfaceI true true 1 1 envDpr32 initState).1.canvasWidth =
      3 / 2 := by
    unfold setupSurfaceI envDpr32 envOk
    norm_num [dprOr1, storeSurface, createSurface]
  have hc : (⌈(1 : ℚ) * (3 / 2 : ℚ)⌉ : ℤ) = 2 := by
    norm_num [Int.ceil_eq_iff]
  rw [h1, hc]
  norm_num

/-! ## Teardown helper lemmas -/

theorem cancelLoop_raf_none (st : CState) :
    (cancelLoop st).animationFrameRef = none := by
  unfold cancelLoop
  rcases h : st.animationFrameRef with _ | t <;> simp [h]

theorem cancelLoop_id (st : CState) (h : st.animationFrameRef = none) :
    cancelLoop st = st := by
  unfold cancelLoop
  rw [h]

theorem clearSurfaceRefGuarded_ref_none (st : CState) :
    (clearSurfaceRefGuarded st).surfaceRef = none := by
  unfold clearSurfaceRefGuarded
  rcases h : st.surfaceRef with _ | s <;> simp [h]

theorem clearSurfaceRefGuarded_raf (st : CState) :
    (clearSurfaceRefGuarded st).animationFrameRef = st.animationFrameRef := by
  unfold clearSurfaceRefGuarded deleteSurface
  rcases h : st.surfaceRef with _ | s
  · rfl
  · by_cases hm : s ∈ st.liveSurfaces <;> simp [hm]

theorem clearSurfaceRefGuarded_id (st : CState) (h : st.surfaceRef = none) :
    clearSurfaceRefGuarded st = st := by
  unfold clearSurfaceRefGuarded
  rw [h]

theorem deleteSurface_raf (st : CState) (s : Nat) (st1 : CState)
    (h : deleteSurface st s = .ok st1) :
    st1.animationFrameRef = st.animationFrameRef := by
  unfold deleteSurface at h
  by_cases hm : s ∈ st.liveSurfaces
  · rw [if_pos hm] at h
    injection h with h1
    subst h1
    rfl
  · rw [if_neg hm] at h
    exact Except.noConfusion h

theorem cleanupB_ok_shape (st st1 : CState) (h : cleanupB st = .ok st1) :
    st1.surfaceRef = none ∧ st1.animationFrameRef = none := by
  unfold cleanupB at h
  rcases hr : (cancelLoop st).surfaceRef with _ | s <;> rw [hr] at h <;>
    dsimp only at h
  · injection h with h1
    subst h1
    exact ⟨hr, cancelLoop_raf_none st⟩
  · rcases hd : deleteSurface (cancelLoop st) s with u | st2 <;> rw [hd] at h <;>
      dsimp only at h
    · exact Except.noConfusion h
    · injection h with h1
      subst h1
      refine ⟨rfl, ?_⟩
      show st2.animationFrameRef = none
      rw [deleteSurface_raf _ _ _ hd, cancelLoop_raf_none]

theorem cleanupB_id_of_clean (st1 : CState) (h1 : st1.surfaceRef = none)
    (h2 : st1.animationFrameRef = none) : cleanupB st1 = .ok st1 := by
  unfold cleanupB
  rw [cancelLoop_id st1 h2, h1]

/-- Terminal state reached by running the basic variant's cleanup on a
component holding one live surface: surfaceless, nothing scheduled. -/
def stCleaned : CState :=
  { surfaceRef := none, animationFrameRef := none, liveSurfaces := [],
    pendingTicks := [], nextSurfaceId := 1, nextToken := 0,
    canvasWidth := 8, canvasHeight := 6 }

/-- C6 (amended): the interactive variant's unmount cleanup never raises
— release of an already-invalidated handle is attempted inside try/catch
and swallowed — and it is idempotent: running it a second time from its
own result returns the very same surfaceless terminal state (no surface
ref, no scheduled tick) without raising.  The basic variant's cleanup is
likewise idempotent on its non-raising runs — whenever it returns
normally it leaves a surfaceless, tickless state from which running it
again returns the same state — but it is not defensive: releasing a
handle that was invalidated out-of-band raises to the caller (see the
counterexample). -/
theorem cleanup_idempotent_and_contained (st : CState) :
    (∃ st1, cleanupI st = .ok st1 ∧ cleanupI st1 = .ok st1 ∧
      st1.surfaceRef = none ∧ st1.animationFrameRef = none) ∧
    (∀ st1, cleanupB st = .ok st1 → cleanupB st1 = .ok st1 ∧
      st1.surfaceRef = none ∧ st1.animationFrameRef = none) := by
  constructor
  · refine ⟨clearSurfaceRefGuarded (cancelLoop st), rfl, ?_, ?_, ?_⟩
    · unfold cleanupI
      rw [cancelLoop_id _
            (by rw [clearSurfaceRefGuarded_raf, cancelLoop_raf_none]),
          clearSurfaceRefGuarded_id _ (clearSurfaceRefGuarded_ref_none _)]
    · exact clearSurfaceRefGuarded_ref_none _
    · rw [clearSurfaceRefGuarded_raf, cancelLoop_raf_none]
  · intro st1 hok
    obtain ⟨h1, h2⟩ := cleanupB_ok_shape st st1 hok
    exact ⟨cleanupB_id_of_clean st1 h1 h2, h1, h2⟩

/-- C6 witness: the teardown theorem applied at a component holding one
live surface; the basic variant's cleanup succeeds there, and from its
terminal state a second run returns the same state. -/
theorem cleanup_idempotent_and_contained_witness :
    (∃ st1, cleanupI stLive = .ok st1 ∧ cleanupI st1 = .ok st1 ∧
      st1.surfaceRef = none ∧ st1.animationFrameRef = none) ∧
    (cleanupB stCleaned = .ok stCleaned ∧
      stCleaned.surfaceRef = none ∧ stCleaned.animationFrameRef = none) :=
  ⟨(cleanup_idempotent_and_contained stLive).1,
   (cleanup_idempotent_and_contained stLive).2 stCleaned rfl⟩

/-- C6 counterexample: in the basic variant, running the unmount cleanup
on a component whose surface handle was invalidated out-of-band raises —
the unguarded `surfaceRef.current.delete()` propagates — so teardown is
not raise-free for both variants as claimed. -/
theorem cleanup_raises_on_stale_handle :
    exceptOk (cleanupB stStale) = false := rfl

/-- C8: the code violates the one-chain invariant.  With the loop active
— token 5 is the sole outstanding tick and `animationFrameRef` holds it —
an imperative `redraw()` on a healthy surface runs `draw`, which
schedules a second animation frame without cancelling the first:
afterwards two ticks (5 and 6) are outstanding, and the ref was
overwritten with 6, so token 5 can no longer be cancelled.  There is no
re-entrancy guard anywhere in `draw` or `redraw`. -/
theorem redraw_while_looping_double_ticks :
    stLoop.pendingTicks = [5] ∧
    (carried (redraw true 4 3 true envOk stLoop).1).pendingTicks = [5, 6] ∧
    (carried (redraw true 4 3 true envOk stLoop).1).animationFrameRef = some 6 :=
  ⟨rfl, rfl, rfl⟩

/-- Pointer-down event at client coordinates (120, 80) on a canvas whose
bounding box has origin (20, 10) and CSS size (w, h), with a backing
buffer of (2w, 2h) and device pixel ratio 2. -/
def ptrAt (w h : ℚ) : PtrEnv :=
  { clientX := 120, clientY := 80, rectLeft := 20, rectTop := 10,
    rectWidth := w, rectHeight := h, canvasW := 2 * w, canvasH := 2 * h,
    devicePixelRatio := some 2 }

/-- C9: for a pointer-down at client coordinates (120, 80) on a canvas
with bounding-box origin (20, 10), CSS size equal to its logical size
(w, h), and a backing buffer sized at DPR 2, the normalized coordinate
computed by `normalizePointerEvent` — and delivered by
`handlePointerDown` to the `onPointerDown` callback — is exactly
(100, 70). -/
theorem pointer_normalization (w h : ℚ) (pid : ℤ) (s : InteractionState)
    (hw0 : w ≠ 0) (hh0 : h ≠ 0) :
    normalizePointerEvent (ptrAt w h) = (100, 70) ∧
    (handlePointerDown true true (ptrAt w h) pid s).2 = some (100, 70) := by
  have h2 : dprOr1 (some 2) = 2 := by norm_num [dprOr1]
  have hww : (2 : ℚ) * w / w = 2 := by
    rw [mul_div_assoc, div_self hw0, mul_one]
  have hhh : (2 : ℚ) * h / h = 2 := by
    rw [mul_div_assoc, div_self hh0, mul_one]
  have hx : ((120 : ℚ) - 20) * (2 * w / w) / 2 = 100 := by
    rw [hww]
    norm_num
  have hy : ((80 : ℚ) - 10) * (2 * h / h) / 2 = 70 := by
    rw [hhh]
    norm_num
  have hn : normalizePointerEvent (ptrAt w h) = (100, 70) := by
    show (((120 : ℚ) - 20) * (2 * w / w) / dprOr1 (some 2),
          ((80 : ℚ) - 10) * (2 * h / h) / dprOr1 (some 2)) = (100, 70)
    rw [h2, Prod.mk.injEq]
    exact ⟨hx, hy⟩
  refine ⟨hn, ?_⟩
  unfold handlePointerDown
  simp [hn]

/-- C9 witness: the normalization theorem at CSS size 400 × 300. -/
theorem pointer_normalization_witness :
    normalizePointerEvent (ptrAt 400 300) = (100, 70) ∧
    (handlePointerDown true true (ptrAt 400 300) 1 initialInteraction).2 =
      some (100, 70) :=
  pointer_normalization 400 300 1 initialInteraction (by norm_num) (by norm_num)

/-- C10: the initial interaction state satisfies the press invariant —
the pressed flag is set exactly when an active pointer id is recorded —
and every pointer handler of the interactive variant (down, move, up,
which also serves pointer-cancel, and leave) preserves it, for any guard
values. -/
theorem pointer_handlers_preserve_press_invariant (interactive hasCanvas : Bool)
    (e : PtrEnv) (pid : ℤ) (s : InteractionState) (hs : PressInv s) :
    PressInv initialInteraction ∧
    PressInv (handlePointerDown interactive hasCanvas e pid s).1 ∧
    PressInv (handlePointerMove interactive hasCanvas e s).1 ∧
    PressInv (handlePointerUp interactive hasCanvas e s).1 ∧
    PressInv (handlePointerLeave interactive s) := by
  refine ⟨rfl, ?_, ?_, ?_, ?_⟩
  · unfold handlePointerDown
    split
    · exact hs
    · simp [PressInv]
  · unfold handlePointerMove
    split
    · exact hs
    · simpa [PressInv] using hs
  · unfold handlePointerUp
    split
    · exact hs
    · simp [PressInv]
  · unfold handlePointerLeave
    split
    · exact hs
    · simpa [PressInv] using hs

/-- C10 witness: the press-invariant theorem applied to the initial state
and a concrete pointer-down event. -/
theorem pointer_handlers_preserve_press_invariant_witness :
    PressInv initialInteraction ∧
    PressInv (handlePointerDown true true (ptrAt 400 300) 1 initialInteraction).1 ∧
    PressInv (handlePointerMove true true (ptrAt 400 300) initialInteraction).1 ∧
    PressInv (handlePointerUp true true (ptrAt 400 300) initialInteraction).1 ∧
    PressInv (handlePointerLeave true initialInteraction) :=
  pointer_handlers_preserve_press_invariant true true (ptrAt 400 300) 1
    initialInteraction rfl

end SkiaPack
